import Mathlib

/-!
# geth-sharding: node runtime, synchronizer and simulator services

A shallow embedding of three Go files:

* `beacon-chain/node/node.go`   (`BeaconNode.Start`, `BeaconNode.Close`)
* `sharding/syncer/service.go`  (`Syncer.Stop`, `Syncer.HandleCollationBodyRequests`)
* `sharding/simulator/service.go` (`Simulator.simulateNotaryRequests`)

Conventions of the embedding.

* Every Go function becomes a function from the receiver state to a `Res`:
  the state afterwards, the trace of effects it performed (in program order)
  and an `Outcome` (returned, blocked at a receive or lock, or panicked).
* A Go channel is a `Chan`: the buffered values and a closed flag, with the
  semantics of the Go language (`close` of a closed channel panics, a send on a
  closed channel panics, a receive from a closed empty channel yields the zero
  value).
* `defer` statements are collected in the order they are written and run in
  reverse order when the function ends.
* A `select` over several ready cases is resolved by the Go scheduler; the
  embedding takes the branch taken at each iteration as an input (a schedule).
-/

namespace GethSharding

/-! ## Go runtime: outcomes and channels -/

/-- How a call ends: it returns, it is parked at a blocking operation, or it
panics with a message. -/
inductive Outcome where
  | returned
  | blocked
  | panicked (msg : String)
  deriving DecidableEq, Repr

/-- Result of running a piece of Go code: state afterwards, effects performed
in program order, and how the run ended. -/
structure Res (σ ε : Type) where
  state : σ
  trace : List ε
  outcome : Outcome
  deriving DecidableEq, Repr

/-- What an iteration of a `for` loop does next: go on with the next iteration,
leave the function, or panic. -/
inductive Flow where
  | next
  | exit
  | crash (msg : String)
  deriving DecidableEq, Repr

/-- A Go channel: the values waiting in its buffer (oldest first), whether it was
closed, and `sendq`, the values of the senders parked on the channel because
its buffer is full (oldest first). -/
structure Chan (α : Type) where
  buf : List α
  closed : Bool
  sendq : List α
  deriving DecidableEq, Repr

namespace Chan

/-- Result of `make(chan T, n)`: open and empty. -/
def make {α : Type} : Chan α := ⟨[], false, []⟩

/-- Builtin `close(c)`: `none` stands for the panic "close of closed channel".
Senders parked on the channel panic in their own goroutines and their values
are lost; the buffered values stay. -/
def close {α : Type} (c : Chan α) : Option (Chan α) :=
  if c.closed then none else some { c with closed := true, sendq := [] }

/-- Statement `c <- v`: `none` stands for the panic "send on closed channel". -/
def send {α : Type} (c : Chan α) (v : α) : Option (Chan α) :=
  if c.closed then none else some { c with buf := c.buf ++ [v] }

/-- Expression `<-c` with zero value `zero`: the oldest buffered value if there
is one (the oldest parked sender, if any, then puts its value in the room made),
the zero value if the channel is closed and drained, and `none` when the receive
is not ready. -/
def recv {α : Type} (zero : α) (c : Chan α) : Option (α × Chan α) :=
  match c.buf with
  | v :: rest =>
      match c.sendq with
      | [] => some (v, { c with buf := rest })
      | w :: ws => some (v, { c with buf := rest ++ [w], sendq := ws })
  | [] => if c.closed then some (zero, c) else none

/-- A receive case of a `select` is ready. -/
def ready {α : Type} (c : Chan α) : Bool :=
  !c.buf.isEmpty || c.closed

end Chan

/-- Message of the runtime panic raised by closing a closed channel. -/
def panicCloseClosed : String := "close of closed channel"

/-- Message of the runtime panic raised by sending on a closed channel. -/
def panicSendClosed : String := "send on closed channel"

/-! ## beacon-chain/node/node.go -/

namespace node

/-- Identity of a registered service. -/
abbrev ServiceId := Nat

/-- Operator signals the listener is notified of (`SIGINT`, `SIGTERM`). -/
inductive Signal where
  | SIGINT
  | SIGTERM
  deriving DecidableEq, Repr

/-- Effects performed by the node runtime. -/
inductive Event where
  | lock
  | unlock
  | log (msg : String)
  | logTimes (msg : String) (times : Nat)
  | startAll
  | serviceStart (id : ServiceId)
  | stopAll
  | serviceStop (id : ServiceId)
  | closeStop
  | goListener
  | signalNotify
  | signalStop
  | goClose
  | debugExit
  deriving DecidableEq, Repr

/-- Modelled from the spec: `shared.ServiceRegistry`, whose source is not part of
the three files. It is an ordered sequence of service handles, insertion order
being registration order. -/
structure ServiceRegistry where
  services : List ServiceId
  deriving DecidableEq, Repr

/-- Modelled from the spec: `ServiceRegistry.StartAll` invokes `start()` on every
registered service, in registration order. -/
def ServiceRegistry.StartAll (r : ServiceRegistry) : List Event :=
  Event.startAll :: r.services.map Event.serviceStart

/-- Modelled from the spec: `ServiceRegistry.StopAll` invokes `stop()` on every
registered service, in registration order; an error returned by one `stop()`
does not prevent the remaining ones. -/
def ServiceRegistry.StopAll (r : ServiceRegistry) : List Event :=
  Event.stopAll :: r.services.map Event.serviceStop

/-- The `BeaconNode` struct: the registry, the lock (true while held) and the
stop channel. -/
structure BeaconNode where
  services : ServiceRegistry
  lock : Bool
  stop : Chan Unit
  deriving DecidableEq, Repr

/-- `New`: a fresh registry and a fresh, open stop channel. -/
def New : BeaconNode :=
  { services := ⟨[]⟩, lock := false, stop := Chan.make }

/-- `BeaconNode.Close`:
```
b.lock.Lock()
defer b.lock.Unlock()
b.services.StopAll()
log.Info("Stopping beacon node")
close(b.stop)
```
The deferred `Unlock` runs whether `close` panics or not. -/
def BeaconNode.Close (b : BeaconNode) : Res BeaconNode Event :=
  if b.lock then ⟨b, [], Outcome.blocked⟩
  else
    let body := [Event.lock] ++ b.services.StopAll ++ [Event.log "Stopping beacon node"]
    match b.stop.close with
    | none =>
        ⟨{ b with lock := false }, body ++ [Event.unlock], Outcome.panicked panicCloseClosed⟩
    | some stop =>
        ⟨{ b with lock := false, stop := stop }, body ++ [Event.closeStop, Event.unlock],
          Outcome.returned⟩

/-- The loop of the interrupt listener, started at counter `i`:
```
for i := 10; i > 0; i-- {
    <-sigc
    if i > 1 {
        log.Info("Already shutting down, interrupt more to panic.", "times", i-1)
    }
}
```
`sigs` are the signals still to be delivered. The second component is `none`
when the loop is parked at `<-sigc`, and the undelivered signals when the loop
has run to its end. -/
def BeaconNode.warnLoop : Nat → List Signal → List Event × Option (List Signal)
  | 0, sigs => ([], some sigs)
  | _ + 1, [] => ([], none)
  | i + 1, _ :: rest =>
      let r := BeaconNode.warnLoop i rest
      ((if i + 1 > 1 then
          [Event.logTimes "Already shutting down, interrupt more to panic." (i + 1 - 1)]
        else []) ++ r.1, r.2)

/-- Message of the forced termination of the listener. -/
def panicClosing : String := "Panic closing the beacon node"

/-- The goroutine spawned by `BeaconNode.Start`, run on the signals `sigs`
delivered to `sigc` (oldest first):
```
sigc := make(chan os.Signal, 1)
signal.Notify(sigc, syscall.SIGINT, syscall.SIGTERM)
defer signal.Stop(sigc)
<-sigc
log.Info("Got interrupt, shutting down...")
go b.Close()
for i := 10; i > 0; i-- { ... }
debug.Exit()
panic("Panic closing the beacon node")
```
-/
def BeaconNode.interruptListener (sigs : List Signal) : List Event × Outcome :=
  match sigs with
  | [] => ([Event.signalNotify], Outcome.blocked)
  | _ :: rest =>
      let first := [Event.signalNotify, Event.log "Got interrupt, shutting down...", Event.goClose]
      match BeaconNode.warnLoop 10 rest with
      | (ev, none) => (first ++ ev, Outcome.blocked)
      | (ev, some _) =>
          (first ++ ev ++ [Event.debugExit, Event.signalStop], Outcome.panicked panicClosing)

/-- `BeaconNode.Start`:
```
b.lock.Lock()
log.Info("Starting beacon node")
b.services.StartAll()
stop := b.stop
b.lock.Unlock()
go func() { ... }()
<-stop
```
The final receive returns only once the stop channel is closed. -/
def BeaconNode.Start (b : BeaconNode) : Res BeaconNode Event :=
  if b.lock then ⟨b, [], Outcome.blocked⟩
  else
    ⟨b, [Event.lock, Event.log "Starting beacon node"] ++ b.services.StartAll
          ++ [Event.unlock, Event.goListener],
      if b.stop.closed then Outcome.returned else Outcome.blocked⟩

/-- The `times` values of the escalating warnings in a trace, in order. -/
def warnings : List Event → List Nat
  | [] => []
  | Event.logTimes _ n :: rest => n :: warnings rest
  | _ :: rest => warnings rest

/-- Number of occurrences of an event in a trace. -/
def occurrences (e : Event) (tr : List Event) : Nat := tr.count e

end node

/-! ## sharding/p2p: messages exchanged with peers -/

namespace p2p

/-- The type `p2p.Peer`; `Peer{}` is its zero value. -/
structure Peer where
  id : Nat
  deriving DecidableEq, Repr

/-- Zero value `p2p.Peer{}`. -/
def Peer.zero : Peer := ⟨0⟩

/-- Modelled from the spec: `messages.CollationBodyRequest{shard_id, period}`. -/
structure CollationBodyRequest where
  ShardID : Int
  Period : Int
  deriving DecidableEq, Repr

/-- Modelled from the spec: `messages.CollationBodyResponse{header_hash, body}`. -/
structure CollationBodyResponse where
  HeaderHash : Nat
  Body : List Nat
  deriving DecidableEq, Repr

/-- Dynamic values carried in the `Data interface{}` field of a message. -/
inductive Payload where
  | bodyRequest (r : CollationBodyRequest)
  | bodyResponse (r : CollationBodyResponse)
  | transaction (data : List Nat)
  deriving DecidableEq, Repr

/-- The type `p2p.Message`: a peer and a payload; `Data = none` is the nil
interface. -/
structure Message where
  Peer : Peer
  Data : Option Payload
  deriving DecidableEq, Repr

/-- Zero value of `p2p.Message`, which a receive from a closed channel yields. -/
def Message.zero : Message := ⟨Peer.zero, none⟩

end p2p

/-! ## sharding/syncer/service.go -/

namespace syncer

open p2p

/-- Effects performed by the sync service. -/
inductive Event where
  | log (msg : String)
  | respond (req : Message)
  | p2pSend (res : CollationBodyResponse) (peer : Peer)
  | p2pBroadcast (data : Payload)
  | errPush (err : String)
  | unsubscribe
  | closeMsgChan
  | closeErrChan
  | cancel
  deriving DecidableEq, Repr

/-- The mutable part of a started `Syncer`.

* `done`: the channel `ctx.Done()` is closed, that is `cancel` was called;
* `msgChan`: the inbox, `make(chan p2p.Message, 100)`;
* `unsubscribed`: `bodyRequests.Unsubscribe()` was called;
* `subErr`: a receive from `bodyRequests.Err()` is ready. The subscription is one
  of the `event.Feed` of go-ethereum, whose error channel carries no value and
  is closed by `Unsubscribe`: the receive is ready from then on;
* `errChan`: the error channel, `make(chan error)`. It is unbuffered: a send
  completes when the goroutine draining it (`utils.HandleServiceErrors`, started
  by `Start`) receives, which is taken for granted while the channel is open.
  Its `buf` lists the errors handed over so far, oldest first. -/
structure Syncer where
  shardID : Int
  done : Bool
  msgChan : Chan Message
  unsubscribed : Bool
  subErr : Bool
  errChan : Chan String
  deriving DecidableEq, Repr

/-- Capacity of the inbox created by `Start`. -/
def msgChanCap : Nat := 100

/-- State of a `Syncer` right after `NewSyncer` and `Start`: nothing cancelled,
an empty open inbox, a live subscription, an open error channel. -/
def Syncer.started (shardID : Int) : Syncer :=
  { shardID := shardID, done := false, msgChan := Chan.make, unsubscribed := false,
    subErr := false, errChan := Chan.make }

/-- The call `s.cancel()`. -/
def Syncer.opCancel (s : Syncer) : Res Syncer Event :=
  ⟨{ s with done := true }, [Event.cancel], Outcome.returned⟩

/-- The call `close(s.errChan)`. -/
def Syncer.opCloseErrChan (s : Syncer) : Res Syncer Event :=
  match s.errChan.close with
  | none => ⟨s, [], Outcome.panicked panicCloseClosed⟩
  | some c => ⟨{ s with errChan := c }, [Event.closeErrChan], Outcome.returned⟩

/-- The call `close(s.msgChan)`. -/
def Syncer.opCloseMsgChan (s : Syncer) : Res Syncer Event :=
  match s.msgChan.close with
  | none => ⟨s, [], Outcome.panicked panicCloseClosed⟩
  | some c => ⟨{ s with msgChan := c }, [Event.closeMsgChan], Outcome.returned⟩

/-- The call `s.bodyRequests.Unsubscribe()`: the feed removes the inbox from its
subscribers, so that a publisher parked on the full inbox gives up its send, and
closes the error channel of the subscription, which makes `<-Err()` ready. -/
def Syncer.opUnsubscribe (s : Syncer) : Res Syncer Event :=
  ⟨{ s with unsubscribed := true, subErr := true, msgChan := { s.msgChan with sendq := [] } },
    [Event.unsubscribe], Outcome.returned⟩

/-- Sequencing of two pieces of code: the second runs only if the first
returned. -/
def andThen (r : Res Syncer Event) (f : Syncer → Res Syncer Event) : Res Syncer Event :=
  match r.outcome with
  | Outcome.returned =>
      let r2 := f r.state
      ⟨r2.state, r.trace ++ r2.trace, r2.outcome⟩
  | _ => r

/-- Runs the pending deferred calls, given most recently deferred first. Each of
them runs, also when the function body or an earlier deferred call panicked; the
most recent panic is the one that propagates. -/
def runDeferred : List (Syncer → Res Syncer Event) → Res Syncer Event → Res Syncer Event
  | [], r => r
  | d :: ds, r =>
      let r2 := d r.state
      runDeferred ds
        ⟨r2.state, r.trace ++ r2.trace,
          match r2.outcome with
          | Outcome.panicked m => Outcome.panicked m
          | _ => r.outcome⟩

/-- `Syncer.Stop`:
```
defer s.cancel()
defer close(s.errChan)
defer close(s.msgChan)
log.Info("Stopping sync service")
s.bodyRequests.Unsubscribe()
return nil
```
`deferred` lists the deferred calls in the order the `defer` statements are
executed; they run in the reverse order after the body. -/
def Syncer.Stop (s : Syncer) : Res Syncer Event :=
  let deferred := [Syncer.opCancel, Syncer.opCloseErrChan, Syncer.opCloseMsgChan]
  let body : Res Syncer Event :=
    andThen ⟨s, [Event.log "Stopping sync service"], Outcome.returned⟩ Syncer.opUnsubscribe
  runDeferred deferred.reverse body

/-- The cases of the `select` in `HandleCollationBodyRequests`. -/
inductive Branch where
  | done
  | msg
  | subErr
  deriving DecidableEq, Repr

/-- Whether a case of the `select` can proceed in state `s`. -/
def Syncer.ready (s : Syncer) : Branch → Bool
  | Branch.done => s.done
  | Branch.msg => s.msgChan.ready
  | Branch.subErr => s.subErr

/-- Error pushed when no response could be constructed:
`fmt.Errorf("could not construct response: %v", err)`. -/
def constructError (err : String) : String := "could not construct response: " ++ err

/-- Error pushed when the subscription fails: `errors.New("subscriber failed")`. -/
def subscriberFailed : String := "subscriber failed"

section
variable {Fetcher : Type}

/-- Body of the case `req := <-s.msgChan` of `HandleCollationBodyRequests`:
```
if req.Data != nil {
    log.Infof("Received p2p request of type: %T", req)
    res, err := RespondCollationBody(req, collationFetcher)
    if err != nil {
        s.errChan <- fmt.Errorf("could not construct response: %v", err)
        continue
    }
    s.p2p.Send(*res, req.Peer)
    log.Infof("Responding to p2p request with collation with headerHash: %v", ...)
}
```
`RespondCollationBody` (defined in another file of the package) is a
parameter. -/
def Syncer.dispatch (RespondCollationBody : Message → Fetcher → Except String CollationBodyResponse)
    (collationFetcher : Fetcher) (s : Syncer) (req : Message) : Syncer × List Event × Flow :=
  match req.Data with
  | none => (s, [], Flow.next)
  | some _ =>
      let received := [Event.log "Received p2p request of type: %T", Event.respond req]
      match RespondCollationBody req collationFetcher with
      | Except.error err =>
          match s.errChan.send (constructError err) with
          | none => (s, received, Flow.crash panicSendClosed)
          | some c =>
              ({ s with errChan := c }, received ++ [Event.errPush (constructError err)], Flow.next)
      | Except.ok res =>
          (s, received ++ [Event.p2pSend res req.Peer,
              Event.log "Responding to p2p request with collation with headerHash: %v"],
            Flow.next)

/-- One pass through the `select` of `HandleCollationBodyRequests` taking case
`b`; `none` when that case is not ready. -/
def Syncer.selectCase (RespondCollationBody : Message → Fetcher → Except String CollationBodyResponse)
    (collationFetcher : Fetcher) (s : Syncer) : Branch → Option (Syncer × List Event × Flow)
  | Branch.done => if s.done then some (s, [], Flow.exit) else none
  | Branch.msg =>
      match s.msgChan.recv Message.zero with
      | none => none
      | some (req, c) =>
          some (Syncer.dispatch RespondCollationBody collationFetcher { s with msgChan := c } req)
  | Branch.subErr =>
      if s.subErr then
        match s.errChan.send subscriberFailed with
        | none => some (s, [], Flow.crash panicSendClosed)
        | some c => some ({ s with errChan := c }, [Event.errPush subscriberFailed], Flow.exit)
      else none

/-- What happens around the loop: the scheduler resolves the `select` in favour
of a case, or the feed delivers a message to the inbox. -/
inductive Sched where
  | take (b : Branch)
  | arrive (m : Message)
  deriving DecidableEq, Repr

/-- A publisher sends `m` on the feed (`Feed.Send` of go-ethereum). While the
subscription is live the message goes to the inbox: into the buffer if there is
room, and otherwise the publisher parks on the full inbox and its message enters
the buffer as soon as a receive makes room. After `Unsubscribe` the feed no
longer sends to the inbox. (A live subscription with a closed inbox does not
arise: `Stop` unsubscribes before it closes the inbox; nothing is delivered
there.) -/
def Syncer.deliver (s : Syncer) (m : Message) : Syncer :=
  if s.unsubscribed || s.msgChan.closed then s
  else if s.msgChan.buf.length < msgChanCap then
    { s with msgChan := { s.msgChan with buf := s.msgChan.buf ++ [m] } }
  else { s with msgChan := { s.msgChan with sendq := s.msgChan.sendq ++ [m] } }

/-- `Syncer.HandleCollationBodyRequests`, run along a schedule:
```
for {
    select {
    case <-done:                   return
    case req := <-s.msgChan:       ...
    case <-s.bodyRequests.Err():   s.errChan <- errors.New("subscriber failed"); return
    }
}
```
A scheduled case that is not ready leaves the loop parked at the `select`. The
outcome is `blocked` when the schedule ends with the loop still parked at the
`select`, `returned` when the function returned. -/
def Syncer.HandleCollationBodyRequests
    (RespondCollationBody : Message → Fetcher → Except String CollationBodyResponse)
    (collationFetcher : Fetcher) : List Sched → Syncer → Res Syncer Event
  | [], s => ⟨s, [], Outcome.blocked⟩
  | Sched.arrive m :: rest, s =>
      Syncer.HandleCollationBodyRequests RespondCollationBody collationFetcher rest (s.deliver m)
  | Sched.take b :: rest, s =>
      match Syncer.selectCase RespondCollationBody collationFetcher s b with
      | none => Syncer.HandleCollationBodyRequests RespondCollationBody collationFetcher rest s
      | some (s1, ev, Flow.exit) => ⟨s1, ev, Outcome.returned⟩
      | some (s1, ev, Flow.crash m) => ⟨s1, ev, Outcome.panicked m⟩
      | some (s1, ev, Flow.next) =>
          let r := Syncer.HandleCollationBodyRequests RespondCollationBody collationFetcher rest s1
          ⟨r.state, ev ++ r.trace, r.outcome⟩

end

/-- An event is a direct send to a peer. -/
def Event.isSend : Event → Bool
  | Event.p2pSend _ _ => true
  | _ => false

/-- An event is a broadcast. -/
def Event.isBroadcast : Event → Bool
  | Event.p2pBroadcast _ => true
  | _ => false

/-- An event is a push on the error channel. -/
def Event.isErrPush : Event → Bool
  | Event.errPush _ => true
  | _ => false

/-- A request for the body of shard 0, period 5, from peer 7. -/
def sampleRequest : Message := ⟨⟨7⟩, some (Payload.bodyRequest ⟨0, 5⟩)⟩

/-- A response to `sampleRequest`. -/
def sampleResponse : CollationBodyResponse := ⟨42, [1, 2, 3]⟩

/-- A `RespondCollationBody` that finds the collation of period 5 only. -/
def sampleRespond (req : Message) (_ : Unit) : Except String CollationBodyResponse :=
  match req.Data with
  | some (Payload.bodyRequest r) =>
      if r.Period = 5 then Except.ok sampleResponse else Except.error "not found"
  | _ => Except.error "bad request"

/-- A request for a period `sampleRespond` does not know. -/
def sampleMissing : Message := ⟨⟨8⟩, some (Payload.bodyRequest ⟨0, 6⟩)⟩

/-- A started sync service with the given messages waiting in its inbox. -/
def sampleSyncer (inbox : List Message) : Syncer :=
  { Syncer.started 0 with msgChan := ⟨inbox, false, []⟩ }

end syncer

/-! ## sharding/simulator/service.go -/

namespace simulator

open p2p

/-- The field of `params.Config` the simulator reads: `PeriodLength int64`. -/
structure Config where
  PeriodLength : Int
  deriving DecidableEq, Repr

/-- What the simulator reads of the block returned by the chain reader: its
number, `blockNumber.Number()`. -/
structure Block where
  Number : Int
  deriving DecidableEq, Repr

/-- Effects performed by the simulator. -/
inductive Event where
  | logDebug (msg : String)
  | logInfo (msg : String)
  | logError (msg : String)
  | blockByNumber
  | requestCollationBody (shardID : Int) (period : Int)
  | feedSend (msg : Message)
  | p2pBroadcast (data : Payload)
  | cancel
  deriving DecidableEq, Repr

/-- The fields of `Simulator` the loops read; `done` says that `ctx.Done()` is
closed. -/
structure Simulator where
  config : Config
  shardID : Int
  done : Bool
  deriving DecidableEq, Repr

/-- `Simulator.Stop`:
```
defer s.cancel()
log.Info("Stopping simulator service")
return nil
```
-/
def Simulator.Stop (s : Simulator) : Res Simulator Event :=
  ⟨{ s with done := true }, [Event.logInfo "Stopping simulator service", Event.cancel],
    Outcome.returned⟩

/-- Message of the panic raised by `big.Int.Div` with a zero divisor. -/
def panicDivZero : String := "division by zero"

/-- The method `(*big.Int).Div`: Euclidean division, `none` (a run-time panic) when
the divisor is zero. -/
def bigDiv (x y : Int) : Option Int :=
  if y = 0 then none else some (Int.ediv x y)

section
variable {Fetcher : Type}

/-- Body of the case `<-delayChan` of `simulateNotaryRequests`:
```
blockNumber, err := reader.BlockByNumber(s.ctx, nil)
if err != nil { log.Errorf(...); continue }
period := new(big.Int).Div(blockNumber.Number(), big.NewInt(s.config.PeriodLength))
req, err := syncer.RequestCollationBody(fetcher, big.NewInt(int64(s.shardID)), period)
if err != nil { log.Errorf(...); continue }
if req != nil {
    msg := p2p.Message{Peer: p2p.Peer{}, Data: *req}
    s.requestFeed.Send(msg)
    log.Info("Sent request for collation body via a shardp2p feed")
}
```
`block` is what the chain reader returns on this tick; `RequestCollationBody`
(defined in package syncer, in a file other than service.go) is a parameter. -/
def Simulator.notaryTick
    (RequestCollationBody : Fetcher → Int → Int → Except String (Option CollationBodyRequest))
    (fetcher : Fetcher) (s : Simulator) (block : Except String Block) : List Event × Flow :=
  match block with
  | Except.error err =>
      ([Event.blockByNumber, Event.logError ("Could not fetch current block number: " ++ err)],
        Flow.next)
  | Except.ok blockNumber =>
      match bigDiv blockNumber.Number s.config.PeriodLength with
      | none => ([Event.blockByNumber], Flow.crash panicDivZero)
      | some period =>
          let called := [Event.blockByNumber, Event.requestCollationBody s.shardID period]
          match RequestCollationBody fetcher s.shardID period with
          | Except.error err =>
              (called ++ [Event.logError ("Error constructing collation body request: " ++ err)],
                Flow.next)
          | Except.ok none => (called, Flow.next)
          | Except.ok (some req) =>
              (called ++ [Event.feedSend ⟨Peer.zero, some (Payload.bodyRequest req)⟩,
                  Event.logInfo "Sent request for collation body via a shardp2p feed"],
                Flow.next)

/-- What happens around the loop of `simulateNotaryRequests`: the `select` takes
the cancellation case, or the timer case with the given answer of the chain
reader. -/
inductive Sched where
  | done
  | tick (block : Except String Block)

/-- `Simulator.simulateNotaryRequests`, run along a schedule:
```
for {
    select {
    case <-done:      log.Debug("Simulator context closed, exiting goroutine"); return
    case <-delayChan: ...
    }
}
```
A scheduled cancellation case that is not ready leaves the loop parked. -/
def Simulator.simulateNotaryRequests
    (RequestCollationBody : Fetcher → Int → Int → Except String (Option CollationBodyRequest))
    (fetcher : Fetcher) : List Sched → Simulator → Res Simulator Event
  | [], s => ⟨s, [], Outcome.blocked⟩
  | Sched.done :: rest, s =>
      if s.done then
        ⟨s, [Event.logDebug "Simulator context closed, exiting goroutine"], Outcome.returned⟩
      else Simulator.simulateNotaryRequests RequestCollationBody fetcher rest s
  | Sched.tick block :: rest, s =>
      match Simulator.notaryTick RequestCollationBody fetcher s block with
      | (ev, Flow.exit) => ⟨s, ev, Outcome.returned⟩
      | (ev, Flow.crash m) => ⟨s, ev, Outcome.panicked m⟩
      | (ev, Flow.next) =>
          let r := Simulator.simulateNotaryRequests RequestCollationBody fetcher rest s
          ⟨r.state, ev ++ r.trace, r.outcome⟩

end

/-- Body of the case `<-delayChan` of `broadcastTransactions`; `data` are the
random bytes of the transaction built by `createTestTx`. -/
def Simulator.broadcastTick (data : List Nat) : List Event × Flow :=
  ([Event.p2pBroadcast (Payload.transaction data), Event.logInfo "Transaction broadcasted"],
    Flow.next)

/-- The `(shardID, period)` arguments of the calls of the request constructor in a
trace, in order. -/
def requestCalls : List Event → List (Int × Int)
  | [] => []
  | Event.requestCollationBody sh p :: rest => (sh, p) :: requestCalls rest
  | _ :: rest => requestCalls rest

/-- A simulator for shard 3 with period length 100. -/
def sampleSimulator : Simulator := ⟨⟨100⟩, 3, false⟩

/-- A request constructor that always builds the request for the pair it is
given. -/
def sampleRequestCollationBody (_ : Unit) (shardID period : Int) :
    Except String (Option CollationBodyRequest) :=
  Except.ok (some ⟨shardID, period⟩)

end simulator

/-! ## Properties of the node runtime -/

namespace node

theorem warnings_append (a b : List Event) : warnings (a ++ b) = warnings a ++ warnings b := by
  induction a with
  | nil => rfl
  | cons e rest ih => cases e <;> simp [warnings, ih]

theorem warnLoop_warnings (i : Nat) (sigs : List Signal) :
    warnings (BeaconNode.warnLoop i sigs).1
      = (List.range (min sigs.length (i - 1))).map (fun j => i - 1 - j) := by
  induction i generalizing sigs with
  | zero => simp [BeaconNode.warnLoop, warnings]
  | succ i ih =>
    cases sigs with
    | nil => simp [BeaconNode.warnLoop, warnings]
    | cons sg rest =>
      rcases Nat.eq_zero_or_pos i with h0 | hpos
      · subst h0
        simp [BeaconNode.warnLoop, warnings]
      · have hm : min (rest.length + 1) i = min rest.length (i - 1) + 1 := by omega
        simp only [BeaconNode.warnLoop, warnings_append, ih, List.length_cons,
          Nat.add_sub_cancel, hm, List.range_succ_eq_map, List.map_cons, List.map_map]
        have hi : i + 1 > 1 := by omega
        simp only [hi, if_true, warnings, List.cons_append, List.nil_append, Nat.sub_zero]
        congr 1
        apply List.map_congr_left
        intro j _
        simp only [Function.comp, Nat.succ_eq_add_one]
        omega

theorem warnLoop_blocked_iff (i : Nat) (sigs : List Signal) :
    (BeaconNode.warnLoop i sigs).2 = none ↔ sigs.length < i := by
  induction i generalizing sigs with
  | zero => simp [BeaconNode.warnLoop]
  | succ i ih =>
    cases sigs with
    | nil => simp [BeaconNode.warnLoop]
    | cons sg rest => simp [BeaconNode.warnLoop, ih]

theorem warnLoop_count_other (i : Nat) (sigs : List Signal) (e : Event)
    (he : ∀ m n, e ≠ Event.logTimes m n) : (BeaconNode.warnLoop i sigs).1.count e = 0 := by
  induction i generalizing sigs with
  | zero => simp [BeaconNode.warnLoop]
  | succ i ih =>
    cases sigs with
    | nil => simp [BeaconNode.warnLoop]
    | cons sg rest =>
      simp only [BeaconNode.warnLoop, List.count_append, ih, Nat.add_zero]
      split
      · rw [List.count_cons, List.count_nil]
        have hne := he "Already shutting down, interrupt more to panic." i
        simp [Ne.symm hne]
      · rfl

theorem count_serviceStop_map (l : List ServiceId) (id : ServiceId) :
    (l.map Event.serviceStop).count (Event.serviceStop id) = l.count id := by
  induction l with
  | nil => rfl
  | cons a rest ih =>
    by_cases h : a = id
    · subst h; simp [ih]
    · have h2 : Event.serviceStop a ≠ Event.serviceStop id := by
        intro hc; exact h (Event.serviceStop.inj hc)
      simp [List.count_cons, ih, h, h2]

theorem count_stopAll_map (l : List ServiceId) :
    (l.map Event.serviceStop).count Event.stopAll = 0 := by
  induction l with
  | nil => rfl
  | cons a rest ih => simp [List.count_cons, ih]

/-- C1, counterexample: on a started node with two registered services the second
`Close` is not a no-op. It runs `StopAll` again, so that over the two calls
`StopAll` and the stop of each service are performed twice, and it panics closing
the stop channel that the first `Close` already closed. -/
theorem close_twice_counterexample :
    (BeaconNode.Start ⟨⟨[1, 2]⟩, false, Chan.make⟩).state.Close.outcome = Outcome.returned ∧
    (BeaconNode.Start ⟨⟨[1, 2]⟩, false, Chan.make⟩).state.Close.state.Close.outcome
      = Outcome.panicked panicCloseClosed ∧
    (BeaconNode.Start ⟨⟨[1, 2]⟩, false, Chan.make⟩).state.Close.state.Close.trace
      = [Event.lock, Event.stopAll, Event.serviceStop 1, Event.serviceStop 2,
          Event.log "Stopping beacon node", Event.unlock] ∧
    occurrences Event.stopAll
      ((BeaconNode.Start ⟨⟨[1, 2]⟩, false, Chan.make⟩).state.Close.trace ++
        (BeaconNode.Start ⟨⟨[1, 2]⟩, false, Chan.make⟩).state.Close.state.Close.trace) = 2 ∧
    occurrences (Event.serviceStop 1)
      ((BeaconNode.Start ⟨⟨[1, 2]⟩, false, Chan.make⟩).state.Close.trace ++
        (BeaconNode.Start ⟨⟨[1, 2]⟩, false, Chan.make⟩).state.Close.state.Close.trace) = 2 := by
  decide

/-- C1, amended: on a node whose lock is free and whose stop channel is open (as
after `New` and `Start`), the first `Close` returns without panic, performs
`StopAll` exactly once (each registered service is stopped once per
registration, in registration order), closes the stop channel and releases the
lock. `Close` is not idempotent: a second `Close` performs `StopAll` once more and
then panics with "close of closed channel", the lock being released by the
deferred `Unlock`. -/
theorem close_first_stops_once_second_panics (b : BeaconNode)
    (hlock : b.lock = false) (hstop : b.stop.closed = false) :
    b.Close.outcome = Outcome.returned ∧
    b.Close.trace = [Event.lock] ++ b.services.StopAll
        ++ [Event.log "Stopping beacon node", Event.closeStop, Event.unlock] ∧
    occurrences Event.stopAll b.Close.trace = 1 ∧
    (∀ id, occurrences (Event.serviceStop id) b.Close.trace = b.services.services.count id) ∧
    b.Close.state.stop.closed = true ∧
    b.Close.state.lock = false ∧
    b.Close.state.Close.outcome = Outcome.panicked panicCloseClosed ∧
    b.Close.state.Close.trace = [Event.lock] ++ b.services.StopAll
        ++ [Event.log "Stopping beacon node", Event.unlock] ∧
    occurrences Event.stopAll (b.Close.trace ++ b.Close.state.Close.trace) = 2 := by
  obtain ⟨services, lock, stop⟩ := b
  obtain ⟨buf, closed, sendq⟩ := stop
  simp only at hlock hstop
  subst hlock hstop
  simp [BeaconNode.Close, Chan.close, ServiceRegistry.StopAll, occurrences, List.count_cons,
    List.count_append, count_serviceStop_map, count_stopAll_map]

/-- C1, amended, at a concrete node: a started node with services 1 and 2. -/
theorem close_first_stops_once_second_panics_witness :
    (BeaconNode.Start ⟨⟨[1, 2]⟩, false, Chan.make⟩).state.lock = false ∧
    (BeaconNode.Start ⟨⟨[1, 2]⟩, false, Chan.make⟩).state.stop.closed = false ∧
    (BeaconNode.Start ⟨⟨[1, 2]⟩, false, Chan.make⟩).state.Close.outcome = Outcome.returned ∧
    occurrences Event.stopAll (BeaconNode.Start ⟨⟨[1, 2]⟩, false, Chan.make⟩).state.Close.trace = 1 ∧
    (BeaconNode.Start ⟨⟨[1, 2]⟩, false, Chan.make⟩).state.Close.state.Close.outcome
      = Outcome.panicked panicCloseClosed :=
  have h := close_first_stops_once_second_panics
    (BeaconNode.Start ⟨⟨[1, 2]⟩, false, Chan.make⟩).state (by decide) (by decide)
  ⟨by decide, by decide, h.1, h.2.2.1, h.2.2.2.2.2.2.1⟩

/-- C8, counterexample: when the first signal is followed by ten more, only nine
warnings are logged, with counts 9 down to 1; the tenth signal after the first
logs none, and no warning carries the count 10. -/
theorem interrupt_warnings_counterexample :
    warnings (BeaconNode.interruptListener (List.replicate 11 Signal.SIGINT)).1
      = [9, 8, 7, 6, 5, 4, 3, 2, 1] ∧
    (warnings (BeaconNode.interruptListener (List.replicate 11 Signal.SIGINT)).1).length ≠ 10 ∧
    warnings (BeaconNode.interruptListener (List.replicate 11 Signal.SIGINT)).1
      = warnings (BeaconNode.interruptListener (List.replicate 10 Signal.SIGINT)).1 := by
  decide

/-- C8, amended: for every sequence of signals delivered to the listener, the
warnings logged are those of the first nine signals after the first one, one per
signal, carrying the counts 9, 8, ..., 1 in that order (strictly decreasing by
one). The tenth signal after the first logs no warning, whatever follows. -/
theorem interrupt_warnings (sigs : List Signal) :
    warnings (BeaconNode.interruptListener sigs).1
      = (List.range (min (sigs.length - 1) 9)).map (fun j => 9 - j) := by
  cases sigs with
  | nil => simp [BeaconNode.interruptListener, warnings]
  | cons sg rest =>
    have hw := warnLoop_warnings 10 rest
    simp only [BeaconNode.interruptListener]
    split
    · next ev heq =>
      rw [heq] at hw
      simpa [warnings_append, warnings] using hw
    · next ev left heq =>
      rw [heq] at hw
      simpa [warnings_append, warnings] using hw

/-- C9: for every sequence of signals delivered to the listener, `Close` is
spawned exactly once as soon as there is a first signal and never again; the
listener flushes diagnostics (`debug.Exit`) exactly once and then panics exactly
when at least eleven signals were delivered, the flush being the last effect but
the deferred `signal.Stop`; with ten signals or fewer it neither flushes nor
panics and stays parked waiting for the next signal. -/
theorem interrupt_close_once_panic_on_eleventh (sigs : List Signal) :
    occurrences Event.goClose (BeaconNode.interruptListener sigs).1
      = (if sigs.length = 0 then 0 else 1) ∧
    ((BeaconNode.interruptListener sigs).2 = Outcome.panicked panicClosing ↔ 11 ≤ sigs.length) ∧
    ((BeaconNode.interruptListener sigs).2 = Outcome.blocked ↔ sigs.length < 11) ∧
    occurrences Event.debugExit (BeaconNode.interruptListener sigs).1
      = (if 11 ≤ sigs.length then 1 else 0) ∧
    (11 ≤ sigs.length → ∃ before, (BeaconNode.interruptListener sigs).1
        = before ++ [Event.debugExit, Event.signalStop]) := by
  cases sigs with
  | nil => simp [BeaconNode.interruptListener, occurrences]
  | cons sg rest =>
    have hb := warnLoop_blocked_iff 10 rest
    have hc := warnLoop_count_other 10 rest Event.goClose (by intro m n h; cases h)
    have hd := warnLoop_count_other 10 rest Event.debugExit (by intro m n h; cases h)
    simp only [BeaconNode.interruptListener, occurrences]
    split
    · next ev heq =>
      rw [heq] at hb hc hd
      simp only at hb hc hd
      have hlt : rest.length < 10 := hb.mp trivial
      have h11 : ¬ (11 ≤ rest.length + 1) := by omega
      simp [List.count_cons, List.count_append, hc, hd, h11]
      omega
    · next ev left heq =>
      rw [heq] at hb hc hd
      simp only at hb hc hd
      have hge : 10 ≤ rest.length := by
        by_contra hcon
        have := hb.mpr (by omega)
        cases this
      have h11 : 11 ≤ rest.length + 1 := by omega
      simp only [List.count_cons, List.count_append, hc, hd, h11, List.cons_append,
        List.nil_append, List.count_nil]
      refine ⟨by simp, by simp [hge], by simp [hge], by simp [hge], fun _ => ?_⟩
      exact ⟨[Event.signalNotify, Event.log "Got interrupt, shutting down...", Event.goClose]
        ++ ev, by simp⟩

/-- C9 at concrete inputs: ten signals spawn `Close` once and leave the listener
waiting; the eleventh makes it flush and panic. -/
theorem interrupt_close_once_panic_on_eleventh_witness :
    occurrences Event.goClose
      (BeaconNode.interruptListener (List.replicate 11 Signal.SIGTERM)).1 = 1 ∧
    (BeaconNode.interruptListener (List.replicate 11 Signal.SIGTERM)).2
      = Outcome.panicked panicClosing ∧
    (BeaconNode.interruptListener (List.replicate 10 Signal.SIGTERM)).2 = Outcome.blocked ∧
    occurrences Event.debugExit
      (BeaconNode.interruptListener (List.replicate 10 Signal.SIGTERM)).1 = 0 :=
  ⟨(interrupt_close_once_panic_on_eleventh (List.replicate 11 Signal.SIGTERM)).1,
    (interrupt_close_once_panic_on_eleventh (List.replicate 11 Signal.SIGTERM)).2.1.mpr
      (by decide),
    (interrupt_close_once_panic_on_eleventh (List.replicate 10 Signal.SIGTERM)).2.2.1.mpr
      (by decide),
    (interrupt_close_once_panic_on_eleventh (List.replicate 10 Signal.SIGTERM)).2.2.2.1⟩

end node

/-! ## Properties of the sync service -/

namespace syncer

open p2p

section
variable {Fetcher : Type}

theorem run_take_next
    (respond : Message → Fetcher → Except String CollationBodyResponse) (fetcher : Fetcher)
    (s s1 : Syncer) (b : Branch) (ev : List Event) (rest : List Sched)
    (h : Syncer.selectCase respond fetcher s b = some (s1, ev, Flow.next)) :
    Syncer.HandleCollationBodyRequests respond fetcher (Sched.take b :: rest) s
      = ⟨(Syncer.HandleCollationBodyRequests respond fetcher rest s1).state,
          ev ++ (Syncer.HandleCollationBodyRequests respond fetcher rest s1).trace,
          (Syncer.HandleCollationBodyRequests respond fetcher rest s1).outcome⟩ := by
  simp [Syncer.HandleCollationBodyRequests, h]

theorem run_take_exit
    (respond : Message → Fetcher → Except String CollationBodyResponse) (fetcher : Fetcher)
    (s s1 : Syncer) (b : Branch) (ev : List Event) (rest : List Sched)
    (h : Syncer.selectCase respond fetcher s b = some (s1, ev, Flow.exit)) :
    Syncer.HandleCollationBodyRequests respond fetcher (Sched.take b :: rest) s
      = ⟨s1, ev, Outcome.returned⟩ := by
  simp [Syncer.HandleCollationBodyRequests, h]

/-- C2: when the inbox case of the `select` takes a message `req` with non-nil
`Data` and `RespondCollationBody req fetcher` succeeds with `res`, that pass of
the loop performs exactly one `p2p.Send`, of `res` to `req.Peer`, no broadcast and
no push on the error channel (which is left as it was), and the loop goes on
with the rest of the schedule. -/
theorem dispatch_success_replies_to_peer
    (respond : Message → Fetcher → Except String CollationBodyResponse) (fetcher : Fetcher)
    (s : Syncer) (req : Message) (c : Chan Message) (res : CollationBodyResponse)
    (rest : List Sched)
    (hrecv : s.msgChan.recv Message.zero = some (req, c))
    (hdata : req.Data ≠ none)
    (hres : respond req fetcher = Except.ok res) :
    ∃ s1 ev,
      Syncer.selectCase respond fetcher s Branch.msg = some (s1, ev, Flow.next) ∧
      ev = [Event.log "Received p2p request of type: %T", Event.respond req,
            Event.p2pSend res req.Peer,
            Event.log "Responding to p2p request with collation with headerHash: %v"] ∧
      ev.filter Event.isSend = [Event.p2pSend res req.Peer] ∧
      ev.filter Event.isBroadcast = [] ∧
      ev.filter Event.isErrPush = [] ∧
      s1 = { s with msgChan := c } ∧
      Syncer.HandleCollationBodyRequests respond fetcher (Sched.take Branch.msg :: rest) s
        = ⟨(Syncer.HandleCollationBodyRequests respond fetcher rest s1).state,
            ev ++ (Syncer.HandleCollationBodyRequests respond fetcher rest s1).trace,
            (Syncer.HandleCollationBodyRequests respond fetcher rest s1).outcome⟩ := by
  have hsel : Syncer.selectCase respond fetcher s Branch.msg
      = some ({ s with msgChan := c },
          [Event.log "Received p2p request of type: %T", Event.respond req,
            Event.p2pSend res req.Peer,
            Event.log "Responding to p2p request with collation with headerHash: %v"],
          Flow.next) := by
    obtain ⟨peer, data⟩ := req
    cases data with
    | none => exact absurd rfl hdata
    | some d => simp [Syncer.selectCase, hrecv, Syncer.dispatch, hres]
  exact ⟨_, _, hsel, rfl, by simp [Event.isSend], by simp [Event.isBroadcast],
    by simp [Event.isErrPush], rfl, run_take_next respond fetcher s _ Branch.msg _ rest hsel⟩

/-- While the error channel is open: when the inbox case takes a message `req`
with non-nil `Data` and `RespondCollationBody req fetcher` fails with `err`, that
pass of the loop sends no response, hands exactly one error to the error
channel, namely `err` wrapped as "could not construct response: ", and the loop
does not exit: it goes on with the rest of the schedule. -/
theorem dispatch_failure_pushes_one_error
    (respond : Message → Fetcher → Except String CollationBodyResponse) (fetcher : Fetcher)
    (s : Syncer) (req : Message) (c : Chan Message) (err : String) (rest : List Sched)
    (hrecv : s.msgChan.recv Message.zero = some (req, c))
    (hdata : req.Data ≠ none)
    (hopen : s.errChan.closed = false)
    (hres : respond req fetcher = Except.error err) :
    ∃ s1 ev,
      Syncer.selectCase respond fetcher s Branch.msg = some (s1, ev, Flow.next) ∧
      ev = [Event.log "Received p2p request of type: %T", Event.respond req,
            Event.errPush ("could not construct response: " ++ err)] ∧
      ev.filter Event.isSend = [] ∧
      ev.filter Event.isBroadcast = [] ∧
      ev.filter Event.isErrPush = [Event.errPush ("could not construct response: " ++ err)] ∧
      s1 = { s with msgChan := c,
                    errChan := { s.errChan with
                      buf := s.errChan.buf ++ ["could not construct response: " ++ err] } } ∧
      Syncer.HandleCollationBodyRequests respond fetcher (Sched.take Branch.msg :: rest) s
        = ⟨(Syncer.HandleCollationBodyRequests respond fetcher rest s1).state,
            ev ++ (Syncer.HandleCollationBodyRequests respond fetcher rest s1).trace,
            (Syncer.HandleCollationBodyRequests respond fetcher rest s1).outcome⟩ := by
  have hsel : Syncer.selectCase respond fetcher s Branch.msg
      = some ({ s with msgChan := c,
                       errChan := { s.errChan with
                         buf := s.errChan.buf ++ ["could not construct response: " ++ err] } },
          [Event.log "Received p2p request of type: %T", Event.respond req,
            Event.errPush ("could not construct response: " ++ err)],
          Flow.next) := by
    obtain ⟨peer, data⟩ := req
    cases data with
    | none => exact absurd rfl hdata
    | some d =>
      simp [Syncer.selectCase, hrecv, Syncer.dispatch, hres, Chan.send, hopen, constructError]
  exact ⟨_, _, hsel, rfl, by simp [Event.isSend], by simp [Event.isBroadcast],
    by simp [Event.isErrPush], rfl, run_take_next respond fetcher s _ Branch.msg _ rest hsel⟩

/-- C10: when the inbox case takes a message whose `Data` is nil, that pass of the
loop performs no effect at all (no lookup, no send, no push on the error
channel), changes nothing but the inbox, and the loop goes on with the rest of
the schedule. -/
theorem dispatch_nil_data_is_skipped
    (respond : Message → Fetcher → Except String CollationBodyResponse) (fetcher : Fetcher)
    (s : Syncer) (req : Message) (c : Chan Message) (rest : List Sched)
    (hrecv : s.msgChan.recv Message.zero = some (req, c))
    (hdata : req.Data = none) :
    Syncer.dispatch respond fetcher { s with msgChan := c } req
      = ({ s with msgChan := c }, [], Flow.next) ∧
    Syncer.selectCase respond fetcher s Branch.msg = some ({ s with msgChan := c }, [], Flow.next) ∧
    Syncer.HandleCollationBodyRequests respond fetcher (Sched.take Branch.msg :: rest) s
      = Syncer.HandleCollationBodyRequests respond fetcher rest { s with msgChan := c } := by
  have hd : Syncer.dispatch respond fetcher { s with msgChan := c } req
      = ({ s with msgChan := c }, [], Flow.next) := by
    obtain ⟨peer, data⟩ := req
    simp only at hdata
    subst hdata
    rfl
  have hsel : Syncer.selectCase respond fetcher s Branch.msg
      = some ({ s with msgChan := c }, [], Flow.next) := by
    simp [Syncer.selectCase, hrecv, hd]
  refine ⟨hd, hsel, ?_⟩
  rw [run_take_next respond fetcher s _ Branch.msg _ rest hsel]
  simp

/-- While the error channel is open: when the subscription-error case is ready and
the `select` takes that case, the loop hands exactly one error, "subscriber
failed", to the error channel and returns. Whatever is scheduled afterwards
(`rest`: further arrivals on the feed, further attempts to take a case) is not
processed: the whole run has that single effect, and the inbox is left
untouched. -/
theorem subscription_error_is_terminal
    (respond : Message → Fetcher → Except String CollationBodyResponse) (fetcher : Fetcher)
    (s : Syncer) (rest : List Sched)
    (hsub : s.subErr = true) (hopen : s.errChan.closed = false) :
    Syncer.HandleCollationBodyRequests respond fetcher (Sched.take Branch.subErr :: rest) s
      = ⟨{ s with errChan := { s.errChan with buf := s.errChan.buf ++ ["subscriber failed"] } },
          [Event.errPush "subscriber failed"], Outcome.returned⟩ := by
  have hsel : Syncer.selectCase respond fetcher s Branch.subErr
      = some ({ s with errChan := { s.errChan with buf := s.errChan.buf ++ ["subscriber failed"] } },
          [Event.errPush "subscriber failed"], Flow.exit) := by
    simp [Syncer.selectCase, hsub, Chan.send, hopen, subscriberFailed]
  exact run_take_exit respond fetcher s _ Branch.subErr _ rest hsel

theorem dispatch_errChan_closed
    (respond : Message → Fetcher → Except String CollationBodyResponse) (fetcher : Fetcher)
    (s : Syncer) (req : Message) :
    (Syncer.dispatch respond fetcher s req).1.errChan.closed = s.errChan.closed := by
  unfold Syncer.dispatch
  split
  · rfl
  · split
    · split
      · rfl
      · next c hc =>
        simp only [Chan.send] at hc
        split at hc
        · cases hc
        · simp only [Option.some.injEq] at hc
          rw [← hc]
    · rfl

theorem selectCase_errChan_closed
    (respond : Message → Fetcher → Except String CollationBodyResponse) (fetcher : Fetcher)
    (s s1 : Syncer) (b : Branch) (ev : List Event) (fl : Flow)
    (h : Syncer.selectCase respond fetcher s b = some (s1, ev, fl)) :
    s1.errChan.closed = s.errChan.closed := by
  cases b with
  | done =>
    simp only [Syncer.selectCase] at h
    split at h
    · simp only [Option.some.injEq, Prod.mk.injEq] at h
      rw [← h.1]
    · cases h
  | msg =>
    simp only [Syncer.selectCase] at h
    split at h
    · cases h
    · next req c hr =>
      simp only [Option.some.injEq] at h
      have hd := dispatch_errChan_closed respond fetcher { s with msgChan := c } req
      rw [h] at hd
      exact hd
  | subErr =>
    simp only [Syncer.selectCase] at h
    split at h
    · split at h
      · simp only [Option.some.injEq, Prod.mk.injEq] at h
        rw [← h.1]
      · next c hc =>
        simp only [Option.some.injEq, Prod.mk.injEq] at h
        rw [← h.1]
        simp only [Chan.send] at hc
        split at hc
        · cases hc
        · simp only [Option.some.injEq] at hc
          rw [← hc]
    · cases h

theorem deliver_errChan (s : Syncer) (m : Message) : (s.deliver m).errChan = s.errChan := by
  unfold Syncer.deliver
  split
  · rfl
  · split <;> rfl

/-- The dispatch loop never closes the error channel: along every schedule the
channel is closed afterwards exactly if it was closed before. Only `Stop` closes
it. -/
theorem run_errChan_closed
    (respond : Message → Fetcher → Except String CollationBodyResponse) (fetcher : Fetcher)
    (sched : List Sched) (s : Syncer) :
    (Syncer.HandleCollationBodyRequests respond fetcher sched s).state.errChan.closed
      = s.errChan.closed := by
  induction sched generalizing s with
  | nil => rfl
  | cons item rest ih =>
    cases item with
    | arrive m =>
      simp only [Syncer.HandleCollationBodyRequests]
      rw [ih, deliver_errChan]
    | take b =>
      simp only [Syncer.HandleCollationBodyRequests]
      cases hsel : Syncer.selectCase respond fetcher s b with
      | none => simpa using ih s
      | some r =>
        obtain ⟨s1, ev, fl⟩ := r
        have hd := selectCase_errChan_closed respond fetcher s s1 b ev fl hsel
        cases fl with
        | next => simp only; rw [ih, hd]
        | exit => simpa using hd
        | crash m => simpa using hd

end

/-- C2 at a concrete input: the request of peer 7 for period 5 is answered by one
send of the response to peer 7. -/
theorem dispatch_success_replies_to_peer_witness :
    (sampleSyncer [sampleRequest]).msgChan.recv Message.zero
      = some (sampleRequest, ⟨[], false, []⟩) ∧
    sampleRequest.Data ≠ none ∧
    sampleRespond sampleRequest () = Except.ok sampleResponse ∧
    ∃ s1 ev,
      Syncer.selectCase sampleRespond () (sampleSyncer [sampleRequest]) Branch.msg
        = some (s1, ev, Flow.next) ∧
      ev.filter Event.isSend = [Event.p2pSend sampleResponse ⟨7⟩] ∧
      ev.filter Event.isBroadcast = [] ∧
      ev.filter Event.isErrPush = [] :=
  ⟨by decide, by decide, rfl,
    match dispatch_success_replies_to_peer sampleRespond () (sampleSyncer [sampleRequest])
        sampleRequest ⟨[], false, []⟩ sampleResponse [] (by decide) (by decide) rfl with
    | ⟨s1, ev, h1, _, h3, h4, h5, _⟩ => ⟨s1, ev, h1, h3, h4, h5⟩⟩

/-- C10 at a concrete input: once `Stop` has closed the empty inbox, a receive
yields the zero message, whose `Data` is nil, and the pass has no effect. -/
theorem dispatch_nil_data_is_skipped_witness :
    (Syncer.Stop (sampleSyncer [])).state.msgChan.recv Message.zero
      = some (Message.zero, ⟨[], true, []⟩) ∧
    Message.zero.Data = none ∧
    Syncer.selectCase sampleRespond () (Syncer.Stop (sampleSyncer [])).state Branch.msg
      = some ({ (Syncer.Stop (sampleSyncer [])).state with msgChan := ⟨[], true, []⟩ }, [],
          Flow.next) :=
  ⟨by decide, by decide,
    (dispatch_nil_data_is_skipped sampleRespond () (Syncer.Stop (sampleSyncer [])).state
      Message.zero ⟨[], true, []⟩ [] (by decide) (by decide)).2.1⟩

/-- C3, the code at the failing input: a request whose lookup fails waits in the
inbox when `Stop` is called. While the service runs, the pass that takes it does
what the claim says: no send, the one error "could not construct response: not
found", and the loop goes on. After `Stop` has returned the inbox case is still
ready, the same request is received and looked up, and the push on the error
channel, which `Stop` closed before it cancelled, panics with "send on closed
channel": no error is pushed and the loop does not go on. -/
theorem failing_request_after_stop_panics :
    (Syncer.selectCase sampleRespond () (sampleSyncer [sampleMissing]) Branch.msg).map
        (fun r => (r.2.1, r.2.2))
      = some ([Event.log "Received p2p request of type: %T", Event.respond sampleMissing,
          Event.errPush "could not construct response: not found"], Flow.next) ∧
    (Syncer.Stop (sampleSyncer [sampleMissing])).outcome = Outcome.returned ∧
    (Syncer.Stop (sampleSyncer [sampleMissing])).state.ready Branch.msg = true ∧
    (Syncer.selectCase sampleRespond () (Syncer.Stop (sampleSyncer [sampleMissing])).state
        Branch.msg).map (fun r => (r.2.1, r.2.2))
      = some ([Event.log "Received p2p request of type: %T", Event.respond sampleMissing],
          Flow.crash "send on closed channel") ∧
    (Syncer.HandleCollationBodyRequests sampleRespond () [Sched.take Branch.msg]
        (Syncer.Stop (sampleSyncer [sampleMissing])).state).outcome
      = Outcome.panicked "send on closed channel" ∧
    (Syncer.HandleCollationBodyRequests sampleRespond () [Sched.take Branch.msg]
        (Syncer.Stop (sampleSyncer [sampleMissing])).state).trace.filter Event.isErrPush
      = [] := by
  decide

/-- C4, the code at the failing input: a freshly started service is stopped. Before
`Stop` the subscription-error case is not ready. `Unsubscribe`, called by `Stop`,
makes it ready, and `Stop` closes the error channel before it cancels. When the
`select` then takes the subscription-error case, the push of "subscriber
failed" panics with "send on closed channel": no error is pushed and the loop
does not return. -/
theorem subscription_error_after_stop_panics :
    (Syncer.started 0).ready Branch.subErr = false ∧
    (Syncer.Stop (Syncer.started 0)).outcome = Outcome.returned ∧
    (Syncer.Stop (Syncer.started 0)).state.ready Branch.subErr = true ∧
    (Syncer.Stop (Syncer.started 0)).state.errChan.closed = true ∧
    (Syncer.HandleCollationBodyRequests sampleRespond () [Sched.take Branch.subErr]
        (Syncer.Stop (Syncer.started 0)).state).outcome
      = Outcome.panicked "send on closed channel" ∧
    (Syncer.HandleCollationBodyRequests sampleRespond () [Sched.take Branch.subErr]
        (Syncer.Stop (Syncer.started 0)).state).trace = [] := by
  decide

/-- C5, the code at the failing input: `Stop` on a freshly started service. The
cancellation is the last effect, after the unsubscription and after both
channels were closed. In the state in which the error channel has just been
closed and `cancel` has not run yet, the cancellation case of the dispatch loop
is not ready while the subscription-error case is, and the loop that takes it
panics with "send on closed channel". -/
theorem stop_cancels_after_closing_channels :
    (Syncer.Stop (Syncer.started 0)).outcome = Outcome.returned ∧
    (Syncer.Stop (Syncer.started 0)).trace
      = [Event.log "Stopping sync service", Event.unsubscribe, Event.closeMsgChan,
          Event.closeErrChan, Event.cancel] ∧
    ¬ ((Syncer.Stop (Syncer.started 0)).trace.indexOf Event.cancel
        < (Syncer.Stop (Syncer.started 0)).trace.indexOf Event.unsubscribe) ∧
    ¬ ((Syncer.Stop (Syncer.started 0)).trace.indexOf Event.cancel
        < (Syncer.Stop (Syncer.started 0)).trace.indexOf Event.closeMsgChan) ∧
    ¬ ((Syncer.Stop (Syncer.started 0)).trace.indexOf Event.cancel
        < (Syncer.Stop (Syncer.started 0)).trace.indexOf Event.closeErrChan) ∧
    (Syncer.opCloseErrChan (Syncer.opCloseMsgChan
        (Syncer.opUnsubscribe (Syncer.started 0)).state).state).state.ready Branch.done
      = false ∧
    (Syncer.opCloseErrChan (Syncer.opCloseMsgChan
        (Syncer.opUnsubscribe (Syncer.started 0)).state).state).state.ready Branch.subErr
      = true ∧
    (Syncer.HandleCollationBodyRequests sampleRespond ()
        [Sched.take Branch.done, Sched.take Branch.subErr]
        (Syncer.opCloseErrChan (Syncer.opCloseMsgChan
          (Syncer.opUnsubscribe (Syncer.started 0)).state).state).state).outcome
      = Outcome.panicked "send on closed channel" := by
  decide

end syncer

/-! ## Properties of the simulator -/

namespace simulator

open p2p

theorem bigDiv_pos (x y : Int) (hy : 0 < y) : bigDiv x y = some (Int.ediv x y) := by
  have hne : y ≠ 0 := ne_of_gt hy
  simp [bigDiv, hne]

theorem ediv_eq_floor (x y : Int) (hy : 0 < y) : Int.ediv x y = ⌊(x : ℚ) / (y : ℚ)⌋ := by
  obtain ⟨n, rfl⟩ := Int.eq_ofNat_of_zero_le (le_of_lt hy)
  have h := Rat.floor_intCast_div_natCast x n
  simpa using h.symm

/-- C6: on a timer tick on which the chain reader returns a block of height
`h ≥ 0`, with a configured period length `L > 0`, `simulateNotaryRequests` applies
the request constructor to the configured `shardID` of the simulator and to the
period `floor(h / L)`: the integer `p ≥ 0` with `L * p ≤ h < L * (p + 1)`, equal to
the floor of the rational quotient. What the tick does is decided by the
constructor applied to exactly these arguments: its error is logged, a nil
request is skipped, and the request it returns is the one sent on the feed, to
no specific peer. The constructor is called once, the tick does not panic and the
loop goes on with the rest of the schedule. -/
theorem notary_tick_period {Fetcher : Type}
    (RequestCollationBody : Fetcher → Int → Int → Except String (Option CollationBodyRequest))
    (fetcher : Fetcher) (s : Simulator) (blockNumber : Block) (rest : List Sched)
    (hh : 0 ≤ blockNumber.Number) (hL : 0 < s.config.PeriodLength) :
    ∃ period : Int,
      period = ⌊(blockNumber.Number : ℚ) / (s.config.PeriodLength : ℚ)⌋ ∧
      s.config.PeriodLength * period ≤ blockNumber.Number ∧
      blockNumber.Number < s.config.PeriodLength * (period + 1) ∧
      0 ≤ period ∧
      Simulator.notaryTick RequestCollationBody fetcher s (Except.ok blockNumber)
        = (match RequestCollationBody fetcher s.shardID period with
          | Except.error err =>
              ([Event.blockByNumber, Event.requestCollationBody s.shardID period,
                  Event.logError ("Error constructing collation body request: " ++ err)],
                Flow.next)
          | Except.ok none =>
              ([Event.blockByNumber, Event.requestCollationBody s.shardID period], Flow.next)
          | Except.ok (some req) =>
              ([Event.blockByNumber, Event.requestCollationBody s.shardID period,
                  Event.feedSend ⟨Peer.zero, some (Payload.bodyRequest req)⟩,
                  Event.logInfo "Sent request for collation body via a shardp2p feed"],
                Flow.next)) ∧
      requestCalls (Simulator.notaryTick RequestCollationBody fetcher s
        (Except.ok blockNumber)).1 = [(s.shardID, period)] ∧
      (Simulator.notaryTick RequestCollationBody fetcher s (Except.ok blockNumber)).2
        = Flow.next ∧
      (Simulator.simulateNotaryRequests RequestCollationBody fetcher
          (Sched.tick (Except.ok blockNumber) :: rest) s).trace
        = (Simulator.notaryTick RequestCollationBody fetcher s (Except.ok blockNumber)).1
          ++ (Simulator.simulateNotaryRequests RequestCollationBody fetcher rest s).trace := by
  have hnext : (Simulator.notaryTick RequestCollationBody fetcher s (Except.ok blockNumber)).2
      = Flow.next := by
    simp only [Simulator.notaryTick, bigDiv_pos _ _ hL]
    cases RequestCollationBody fetcher s.shardID
        (Int.ediv blockNumber.Number s.config.PeriodLength) with
    | error err => rfl
    | ok r => cases r <;> rfl
  refine ⟨Int.ediv blockNumber.Number s.config.PeriodLength, ?_, ?_, ?_, ?_, ?_, ?_, hnext, ?_⟩
  · exact ediv_eq_floor _ _ hL
  · exact Int.mul_ediv_self_le (ne_of_gt hL)
  · have h := Int.lt_mul_ediv_self_add (x := blockNumber.Number) hL
    have e : s.config.PeriodLength * (Int.ediv blockNumber.Number s.config.PeriodLength + 1)
        = s.config.PeriodLength * (blockNumber.Number / s.config.PeriodLength)
          + s.config.PeriodLength := by
      show s.config.PeriodLength * (blockNumber.Number / s.config.PeriodLength + 1) = _
      ring
    rw [e]
    exact h
  · exact Int.ediv_nonneg hh (le_of_lt hL)
  · simp only [Simulator.notaryTick, bigDiv_pos _ _ hL]
    cases RequestCollationBody fetcher s.shardID
        (Int.ediv blockNumber.Number s.config.PeriodLength) with
    | error err => rfl
    | ok r => cases r <;> rfl
  · simp only [Simulator.notaryTick, bigDiv_pos _ _ hL]
    cases RequestCollationBody fetcher s.shardID
        (Int.ediv blockNumber.Number s.config.PeriodLength) with
    | error err => simp [requestCalls]
    | ok r => cases r <;> simp [requestCalls]
  · rcases hpair : Simulator.notaryTick RequestCollationBody fetcher s (Except.ok blockNumber)
      with ⟨ev, fl⟩
    rw [hpair] at hnext
    simp only at hnext
    subst hnext
    simp [Simulator.simulateNotaryRequests, hpair]

/-- C6 at the inputs of the specification: for shard 3 and period length 100, the
heights 1000 and 1050 both make the tick call the constructor with shard 3 and
period 10 and send on the feed the request the constructor built for them. -/
theorem notary_tick_period_witness :
    (0 : Int) ≤ (Block.mk 1000).Number ∧ (0 : Int) ≤ (Block.mk 1050).Number ∧
    0 < sampleSimulator.config.PeriodLength ∧
    (Simulator.notaryTick sampleRequestCollationBody () sampleSimulator (Except.ok ⟨1000⟩)).1
      = [Event.blockByNumber, Event.requestCollationBody 3 10,
          Event.feedSend ⟨Peer.zero, some (Payload.bodyRequest ⟨3, 10⟩)⟩,
          Event.logInfo "Sent request for collation body via a shardp2p feed"] ∧
    (Simulator.notaryTick sampleRequestCollationBody () sampleSimulator (Except.ok ⟨1050⟩)).1
      = [Event.blockByNumber, Event.requestCollationBody 3 10,
          Event.feedSend ⟨Peer.zero, some (Payload.bodyRequest ⟨3, 10⟩)⟩,
          Event.logInfo "Sent request for collation body via a shardp2p feed"] := by
  refine ⟨by decide, by decide, by decide, ?_, ?_⟩
  · obtain ⟨p, _, hlo, hhi, _, heq, _⟩ :=
      notary_tick_period sampleRequestCollationBody () sampleSimulator ⟨1000⟩ []
        (by decide) (by decide)
    have hp : p = 10 := by
      simp only [sampleSimulator] at hlo hhi
      omega
    rw [heq, hp]
    rfl
  · obtain ⟨p, _, hlo, hhi, _, heq, _⟩ :=
      notary_tick_period sampleRequestCollationBody () sampleSimulator ⟨1050⟩ []
        (by decide) (by decide)
    have hp : p = 10 := by
      simp only [sampleSimulator] at hlo hhi
      omega
    rw [heq, hp]
    rfl

end simulator

end GethSharding
